import Mathlib

/-!
Verification of the procedural-terrain / NPC simulation core of the
isometric-game repository.  The JavaScript sources under src/js are shallowly
embedded below: pure functions become Lean functions, ambient randomness
(Math.random draws) becomes explicit oracle records, machine numbers become
exact rationals and integers, and registry objects become explicit state
records.  Noise samples and thresholds are modelled as rationals: every
comparison performed by the source is a comparison against short decimal
constants whose IEEE doubles order identically to their exact values.
-/

namespace IsoGame

/-- TILE_TYPES from src/js/terrain/terrain.js. -/
inductive TileType
  | water
  | sand
  | grass
  | rock
  | snow
deriving DecidableEq

/-- A map tile: a terrain classification plus a discrete elevation level. -/
structure Tile where
  type : TileType
  height : ℤ
deriving DecidableEq

/-- CLIMATE_TYPES from src/js/terrain/terrain.js, in Object.values order. -/
inductive Climate
  | desert
  | prairie
  | sparseForest
  | denseForest
  | highMountain
deriving DecidableEq

/-- The three threshold fields read by getTileForClimate
(rules.thresholds.grass / .rock / .snow).  The DESERT entry of
CLIMATE_TILE_RULES spells its first threshold key as sand, so reading
thresholds.grass on it yields undefined in JavaScript; the grass field is
therefore an Option, with none for the undefined read. -/
structure Thresholds where
  grass : Option ℚ
  rock : ℚ
  snow : ℚ
deriving DecidableEq

/-- One entry of CLIMATE_TILE_RULES. -/
structure ClimateRule where
  forbidden : List TileType
  primary : TileType
  secondary : TileType
  thresholds : Thresholds
deriving DecidableEq

/-- CLIMATE_TILE_RULES from src/js/terrain/terrain.js lines 35-66.  The desert
entry stores its low threshold under the key sand, hence grass := none there
(the stored value -0.6 is never read by the classifier). -/
def CLIMATE_TILE_RULES : Climate → ClimateRule
  | .desert =>
      { forbidden := [.grass], primary := .sand, secondary := .rock
        thresholds := { grass := none, rock := 3/10, snow := 8/10 } }
  | .prairie =>
      { forbidden := [.rock, .sand, .snow], primary := .grass, secondary := .grass
        thresholds := { grass := some (-1), rock := 1, snow := 1 } }
  | .sparseForest =>
      { forbidden := [.sand], primary := .grass, secondary := .rock
        thresholds := { grass := some (-2/10), rock := 6/10, snow := 9/10 } }
  | .denseForest =>
      { forbidden := [.sand], primary := .grass, secondary := .rock
        thresholds := { grass := some (2/10), rock := 7/10, snow := 9/10 } }
  | .highMountain =>
      { forbidden := [.sand], primary := .rock, secondary := .snow
        thresholds := { grass := some (-3/10), rock := 4/10, snow := 6/10 } }

/-- Feature membership sets (river, coastline): the JS Sets of x,y string
keys become lists of integer pairs; only membership is ever consulted, so
duplicates in the list are harmless. -/
abbrev FeatureSet := List (ℤ × ℤ)

/-- JavaScript comparison of a number against a possibly-undefined threshold:
v less-than undefined evaluates to false. -/
def ltOpt (v : ℚ) (t : Option ℚ) : Bool :=
  match t with
  | none => false
  | some q => decide (v < q)

/-- isNearFeature from src/js/terrain/terrain.js lines 158-167: scans the
square of side 2*distance+1 centred on (x,y) for a feature member.  The
source loops dx and dy from -distance to distance; here i and j run over
0 .. 2*distance and are shifted by distance. -/
def isNearFeature (x y : ℤ) (featureSet : FeatureSet) (distance : ℕ) : Bool :=
  decide (∃ i ∈ Finset.range (2 * distance + 1),
    ∃ j ∈ Finset.range (2 * distance + 1),
      ((x + i - distance : ℤ), (y + j - distance : ℤ)) ∈ featureSet)

/-- The climate-based tile selection closing getTileForClimate
(terrain.js lines 204-223): the three ascending threshold comparisons
followed by the forbidden-tile replacement. -/
def noiseClassify (noiseValue : ℚ) (climate : Climate) : TileType :=
  let rules := CLIMATE_TILE_RULES climate
  let tileType :=
    if ltOpt noiseValue rules.thresholds.grass then rules.primary
    else if noiseValue < rules.thresholds.rock then .grass
    else if noiseValue < rules.thresholds.snow then .rock
    else .snow
  if tileType ∈ rules.forbidden then
    if noiseValue > 0 then rules.secondary else rules.primary
  else tileType

/-- getTileForClimate from src/js/terrain/terrain.js lines 180-224. -/
def getTileForClimate (noiseValue : ℚ) (climate : Climate) (x y : ℤ)
    (river coastline : FeatureSet) : TileType :=
  if (x, y) ∈ river then .water
  else if (x, y) ∈ coastline then .water
  else if isNearFeature x y coastline 1 then .sand
  else if isNearFeature x y river 1
        ∧ (climate = .desert ∨ climate = .prairie) then .sand
  else noiseClassify noiseValue climate

/-- Spec-side threshold table for claim C1: three plain ascending thresholds
per climate, with -0.6 / 0.3 / 0.8 for DESERT. -/
structure SpecThresholds where
  grass : ℚ
  rock : ℚ
  snow : ℚ
deriving DecidableEq

/-- One row of the spec's climate rule table. -/
structure SpecRule where
  forbidden : List TileType
  primary : TileType
  secondary : TileType
  thresholds : SpecThresholds
deriving DecidableEq

/-- The climate rule table exactly as the spec (and claim C1) states it:
forbidden / primary / secondary and the ascending grass/rock/snow
thresholds per climate. -/
def specRuleTable : Climate → SpecRule
  | .desert =>
      { forbidden := [.grass], primary := .sand, secondary := .rock
        thresholds := { grass := -6/10, rock := 3/10, snow := 8/10 } }
  | .prairie =>
      { forbidden := [.rock, .sand, .snow], primary := .grass, secondary := .grass
        thresholds := { grass := -1, rock := 1, snow := 1 } }
  | .sparseForest =>
      { forbidden := [.sand], primary := .grass, secondary := .rock
        thresholds := { grass := -2/10, rock := 6/10, snow := 9/10 } }
  | .denseForest =>
      { forbidden := [.sand], primary := .grass, secondary := .rock
        thresholds := { grass := 2/10, rock := 7/10, snow := 9/10 } }
  | .highMountain =>
      { forbidden := [.sand], primary := .rock, secondary := .snow
        thresholds := { grass := -3/10, rock := 4/10, snow := 6/10 } }

/-- Chebyshev distance between two grid cells. -/
def chebyshev (p q : ℤ × ℤ) : ℤ :=
  max |p.1 - q.1| |p.2 - q.2|

/-- Spec-side proximity test for claim C1: (x,y) is within Chebyshev
distance 1 of some member of the feature set. -/
def specNear (featureSet : FeatureSet) (x y : ℤ) : Bool :=
  decide (∃ p ∈ featureSet, chebyshev (x, y) p ≤ 1)

/-- The noise-threshold selection exactly as claim C1 words it, over the
spec's plain three-threshold table: below grass gives the climate's
primary, below rock gives GRASS, below snow gives ROCK, else SNOW; a
selected type in the forbidden set is replaced by secondary when the noise
value is positive and by primary otherwise. -/
def specNoiseClassify (noiseValue : ℚ) (climate : Climate) : TileType :=
  let rules := specRuleTable climate
  let selected :=
    if noiseValue < rules.thresholds.grass then rules.primary
    else if noiseValue < rules.thresholds.rock then .grass
    else if noiseValue < rules.thresholds.snow then .rock
    else .snow
  if selected ∈ rules.forbidden then
    if noiseValue > 0 then rules.secondary else rules.primary
  else selected

/-- The tile classifier exactly as claim C1 words it: first-match priority
order river WATER, coastline WATER, Chebyshev-1 of coastline SAND,
Chebyshev-1 of river SAND for DESERT or PRAIRIE, then the threshold
selection of specNoiseClassify. -/
def specGetTileForClimate (noiseValue : ℚ) (climate : Climate) (x y : ℤ)
    (river coastline : FeatureSet) : TileType :=
  if (x, y) ∈ river then .water
  else if (x, y) ∈ coastline then .water
  else if specNear coastline x y then .sand
  else if specNear river x y
        ∧ (climate = .desert ∨ climate = .prairie) then .sand
  else specNoiseClassify noiseValue climate

lemma isNearFeature_eq_specNear (x y : ℤ) (s : FeatureSet) :
    isNearFeature x y s 1 = specNear s x y := by
  unfold isNearFeature specNear chebyshev
  rw [decide_eq_decide]
  constructor
  · rintro ⟨i, hi, j, hj, hmem⟩
    simp only [Finset.mem_range] at hi hj
    refine ⟨(x + i - 1, y + j - 1), hmem, ?_⟩
    have hi2 : (i : ℤ) ≤ 2 := by exact_mod_cast Nat.lt_succ_iff.mp hi
    have hj2 : (j : ℤ) ≤ 2 := by exact_mod_cast Nat.lt_succ_iff.mp hj
    have hi0 : (0 : ℤ) ≤ i := Int.ofNat_nonneg i
    have hj0 : (0 : ℤ) ≤ j := Int.ofNat_nonneg j
    simp only [max_le_iff, abs_le]
    omega
  · rintro ⟨p, hmem, hle⟩
    simp only [max_le_iff, abs_le] at hle
    refine ⟨(p.1 - x + 1).toNat, ?_, (p.2 - y + 1).toNat, ?_, ?_⟩
    · simp only [Finset.mem_range]; omega
    · simp only [Finset.mem_range]; omega
    · have h1 : x + ((p.1 - x + 1).toNat : ℤ) - 1 = p.1 := by omega
      have h2 : y + ((p.2 - y + 1).toNat : ℤ) - 1 = p.2 := by omega
      push_cast
      rw [h1, h2]
      exact hmem

lemma noiseClassify_eq_spec (v : ℚ) (c : Climate) :
    noiseClassify v c = specNoiseClassify v c := by
  cases c
  case desert =>
    simp only [noiseClassify, specNoiseClassify, CLIMATE_TILE_RULES,
      specRuleTable, ltOpt]
    by_cases h1 : v < -6/10
    · have h2 : v < 3/10 := by linarith
      have h4 : ¬ v > 0 := by linarith
      simp [h1, h2, h4]
    · by_cases h2 : v < 3/10
      · simp [h1, h2]
      · by_cases h3 : v < 8/10 <;> simp [h1, h2, h3]
  all_goals
    simp only [noiseClassify, specNoiseClassify, CLIMATE_TILE_RULES,
      specRuleTable, ltOpt, decide_eq_true_eq]

/-- C1: getTileForClimate returns, for every climate, coordinate pair,
river set, coastline set and noise value, exactly the result of the first
match of the priority order stated by the spec, with the threshold table
grass/rock/snow equal to -0.6/0.3/0.8 (DESERT), -1/1/1 (PRAIRIE),
-0.2/0.6/0.9 (SPARSE_FOREST), 0.2/0.7/0.9 (DENSE_FOREST) and
-0.3/0.4/0.6 (HIGH_MOUNTAIN). -/
theorem getTileForClimate_matches_spec (v : ℚ) (c : Climate) (x y : ℤ)
    (river coastline : FeatureSet) :
    getTileForClimate v c x y river coastline
      = specGetTileForClimate v c x y river coastline := by
  unfold getTileForClimate specGetTileForClimate
  rw [isNearFeature_eq_specNear, isNearFeature_eq_specNear]
  split_ifs <;> first
    | rfl
    | exact noiseClassify_eq_spec v c

/-- TILE_HEIGHTS together with getTileHeightForType (terrain.js lines 19-25
and 169-178): WATER, SAND and GRASS sit at level 0, SNOW at level 2, and
ROCK is the array case — level 2 when the noise value exceeds 0.5, level 1
otherwise. -/
def getTileHeightForType (tileType : TileType) (noiseValue : ℚ) : ℤ :=
  match tileType with
  | .water => 0
  | .sand => 0
  | .grass => 0
  | .rock => if noiseValue > 5/10 then 2 else 1
  | .snow => 2

/-- One execution's worth of Math.random outcomes for generateMap.  Each
field captures the discrete outcome of one draw; the definitions below
reduce each value modulo the range the source draw produces, so every
oracle corresponds to a possible run and every run to some oracle.  The
noise field gives the simplex-noise sample of each cell. -/
structure GenOracle where
  climateIdx : ℕ
  riverRoll : Bool
  coastRoll : Bool
  riverStart : ℕ
  riverStep : ℕ → ℕ
  coastSide : ℕ
  coastDepth : ℕ → ℕ
  noise : ℕ → ℕ → ℚ

/-- Object.values(CLIMATE_TYPES), the candidate list of selectClimate. -/
def climateValues : List Climate :=
  [.desert, .prairie, .sparseForest, .denseForest, .highMountain]

/-- selectClimate from terrain.js lines 68-71: a uniformly random index
into the five climates. -/
def selectClimate (k : ℕ) : Climate :=
  climateValues.getD (k % 5) .desert

/-- The clamp applied to the river column after each step
(terrain.js line 105): Math.max(1, Math.min(width - 2, x)). -/
def clampRiverX (width : ℕ) (x : ℤ) : ℤ :=
  max 1 (min ((width : ℤ) - 2) x)

/-- The river column at each row of the walk in generateRiverPath.  Row 0
starts at Math.floor(Math.random()*width) — zero when the width is zero —
and each later row moves by a step in -1..1 and clamps. -/
def riverCenter (width : ℕ) (start : ℕ) (step : ℕ → ℕ) : ℕ → ℤ
  | 0 => if width = 0 then 0 else ((start % width : ℕ) : ℤ)
  | n + 1 =>
      clampRiverX width (riverCenter width start step n + ((step n % 3 : ℕ) : ℤ) - 1)

/-- The bounds test guarding river cell insertion (terrain.js line 96). -/
def inBoundsB (w h : ℕ) (p : ℤ × ℤ) : Bool :=
  decide (0 ≤ p.1 ∧ p.1 < (w : ℤ) ∧ 0 ≤ p.2 ∧ p.2 < (h : ℤ))

/-- The 3 by 3 block of cells marked around each river position
(terrain.js lines 92-100). -/
def box3 (cx cy : ℤ) : List (ℤ × ℤ) :=
  [-1, 0, 1].flatMap fun dx => [-1, 0, 1].map fun dy => (cx + dx, cy + dy)

/-- generateRiverPath from terrain.js lines 81-109: a top-to-bottom walk,
one iteration per row, marking the in-bounds part of a 3 by 3 block around
the current position each time. -/
def generateRiverPath (w h : ℕ) (start : ℕ) (step : ℕ → ℕ) : FeatureSet :=
  (List.range h).flatMap fun row =>
    (box3 (riverCenter w start step row) row).filter fun p => inBoundsB w h p

/-- Math.floor(Math.min(width, height) * 0.3) from terrain.js line 116.
Multiplying an integer by the IEEE double nearest 0.3 and flooring gives
exactly the floor of the exact product for all map sizes (the relative
representation error of 0.3 is below half an ulp of any integer product),
so the exact rational model is faithful. -/
def coastMaxDepth (w h : ℕ) : ℤ :=
  ((3 * min w h) / 10 : ℕ)

/-- The per-line inland depth drawn in generateCoastline (terrain.js line
123 and its three copies): Math.floor(Math.random()*(maxDepth-minDepth+1))
plus minDepth, where minDepth = maxDepth - 2, so a draw in 0..2 shifted by
maxDepth - 2.  Non-positive depths mark nothing. -/
def coastDepthAt (w h : ℕ) (depthRand : ℕ → ℕ) (i : ℕ) : ℤ :=
  ((depthRand i % 3 : ℕ) : ℤ) + (coastMaxDepth w h - 2)

/-- generateCoastline from terrain.js lines 111-156: one of the four edges,
and for every line along that edge a contiguous inland strip of cells of
the drawn depth. -/
def generateCoastline (w h : ℕ) (side : ℕ) (depthRand : ℕ → ℕ) : FeatureSet :=
  match side % 4 with
  | 0 => (List.range w).flatMap fun x : ℕ =>
      (List.range (coastDepthAt w h depthRand x).toNat).map fun j : ℕ =>
        ((x : ℤ), (j : ℤ))
  | 1 => (List.range h).flatMap fun y : ℕ =>
      (List.range (coastDepthAt w h depthRand y).toNat).map fun j : ℕ =>
        ((w : ℤ) - coastDepthAt w h depthRand y + j, (y : ℤ))
  | 2 => (List.range w).flatMap fun x : ℕ =>
      (List.range (coastDepthAt w h depthRand x).toNat).map fun j : ℕ =>
        ((x : ℤ), (h : ℤ) - coastDepthAt w h depthRand x + j)
  | _ => (List.range h).flatMap fun y : ℕ =>
      (List.range (coastDepthAt w h depthRand y).toNat).map fun j : ℕ =>
        ((j : ℤ), (y : ℤ))

/-- The metadata record returned by generateMap. -/
structure TerrainMetadata where
  climate : Climate
  hasRiver : Bool
  hasCoastline : Bool
deriving DecidableEq

/-- The record returned by generateMap: the row-major tile grid plus its
metadata. -/
structure TerrainResult where
  map : List (List Tile)
  metadata : TerrainMetadata
deriving DecidableEq

/-- The river set threaded into classification: carved when the river roll
succeeded, the empty set otherwise (terrain.js line 236). -/
def riverFor (o : GenOracle) (w h : ℕ) : FeatureSet :=
  if o.riverRoll then generateRiverPath w h o.riverStart o.riverStep else []

/-- The coastline set threaded into classification (terrain.js line 237). -/
def coastFor (o : GenOracle) (w h : ℕ) : FeatureSet :=
  if o.coastRoll then generateCoastline w h o.coastSide o.coastDepth else []

/-- The tile generateMap builds for cell (x, y): classify the noise sample,
then derive the height (terrain.js lines 243-250). -/
def tileFor (o : GenOracle) (w h : ℕ) (x y : ℕ) : Tile :=
  let noiseValue := o.noise x y
  let tileType :=
    getTileForClimate noiseValue (selectClimate o.climateIdx) x y
      (riverFor o w h) (coastFor o w h)
  { type := tileType, height := getTileHeightForType tileType noiseValue }

/-- The body of generateMap from terrain.js lines 226-262: select a climate,
roll both features, carve them, and classify every cell of the
height-by-width grid. -/
def generateMapCore (o : GenOracle) (width height : ℕ) : TerrainResult :=
  { map := (List.range height).map fun y =>
      (List.range width).map fun x => tileFor o width height x y
    metadata :=
      { climate := selectClimate o.climateIdx
        hasRiver := o.riverRoll
        hasCoastline := o.coastRoll } }

/-- generateMap, with a JavaScript exception modelled as Except.error.  The
source performs no input validation and its body contains no throwing
operation (all loops are bounds-guarded), so every call returns normally. -/
def generateMap (o : GenOracle) (width height : ℕ) :
    Except String TerrainResult :=
  Except.ok (generateMapCore o width height)

/-- The placeholder tile used with List.getD when indexing the grid. -/
def defTile : Tile := { type := .water, height := 0 }

/-- The tile of a generated map at integer cell coordinates, none when out
of range of the actual row/column lists. -/
def tileAt (res : TerrainResult) (x y : ℤ) : Option Tile :=
  if 0 ≤ y ∧ y < (res.map.length : ℤ) then
    let row := res.map.getD y.toNat []
    if 0 ≤ x ∧ x < (row.length : ℤ) then some (row.getD x.toNat defTile)
    else none
  else none

lemma getD_map_range {α : Type} (f : ℕ → α) (n i : ℕ) (d : α) (h : i < n) :
    ((List.range n).map f).getD i d = f i := by
  rw [List.getD_eq_getElem?_getD]
  rw [List.getElem?_map, List.getElem?_range h]
  rfl

lemma core_map_length (o : GenOracle) (w h : ℕ) :
    (generateMapCore o w h).map.length = h := by
  simp [generateMapCore]

lemma core_row_length (o : GenOracle) (w h y : ℕ) (hy : y < h) :
    ((generateMapCore o w h).map.getD y []).length = w := by
  unfold generateMapCore
  rw [getD_map_range _ _ _ _ hy]
  simp

lemma tileAt_core (o : GenOracle) (w h x y : ℕ) (hx : x < w) (hy : y < h) :
    tileAt (generateMapCore o w h) x y = some (tileFor o w h x y) := by
  unfold tileAt
  rw [if_pos, if_pos]
  · congr 1
    have h1 : ((y : ℤ)).toNat = y := Int.toNat_ofNat y
    have h2 : ((x : ℤ)).toNat = x := Int.toNat_ofNat x
    rw [h1, h2]
    unfold generateMapCore
    simp only
    rw [getD_map_range _ _ _ _ hy, getD_map_range _ _ _ _ hx]
  · constructor
    · exact Int.ofNat_nonneg x
    · rw [Int.toNat_ofNat y]
      unfold generateMapCore
      simp only
      rw [getD_map_range _ _ _ _ hy]
      simp only [List.length_map, List.length_range]
      exact_mod_cast hx
  · constructor
    · exact Int.ofNat_nonneg y
    · rw [core_map_length]
      exact_mod_cast hy

/-- C2: in every generated map, SNOW tiles have height 2, ROCK tiles have
height 1 or 2 with 2 exactly when the cell's noise sample exceeds 0.5, and
WATER, SAND and GRASS tiles have height 0. -/
theorem generateMap_height_invariant (o : GenOracle) (w h : ℕ)
    (hw : 1 ≤ w) (hh : 1 ≤ h) (res : TerrainResult)
    (hres : generateMap o w h = Except.ok res)
    (x y : ℕ) (hx : x < w) (hy : y < h) (t : Tile)
    (ht : tileAt res x y = some t) :
    (t.type = .snow → t.height = 2)
    ∧ (t.type = .rock →
        (t.height = 1 ∨ t.height = 2) ∧ (t.height = 2 ↔ o.noise x y > 5/10))
    ∧ (t.type = .water ∨ t.type = .sand ∨ t.type = .grass → t.height = 0) := by
  have hres2 : res = generateMapCore o w h := by
    simpa [generateMap] using hres.symm
  subst hres2
  rw [tileAt_core o w h x y hx hy] at ht
  have ht2 : t = tileFor o w h x y := by
    exact (Option.some_injective _ ht).symm
  subst ht2
  cases hc : getTileForClimate (o.noise x y) (selectClimate o.climateIdx) x y
      (riverFor o w h) (coastFor o w h) <;>
    simp [tileFor, getTileHeightForType, hc] <;>
    by_cases hn : o.noise x y > 5/10 <;>
    simp [hn] <;>
    linarith

/-- The all-zero oracle: no river roll, no coastline roll, zero noise. -/
def zeroOracle : GenOracle :=
  { climateIdx := 0, riverRoll := false, coastRoll := false, riverStart := 0
    riverStep := fun _ => 0, coastSide := 0, coastDepth := fun _ => 0
    noise := fun _ _ => 0 }

lemma isNearFeature_nil (x y : ℤ) (d : ℕ) : isNearFeature x y [] d = false := by
  simp [isNearFeature]

lemma getTileForClimate_nil (v : ℚ) (c : Climate) (x y : ℤ) :
    getTileForClimate v c x y [] [] = noiseClassify v c := by
  simp [getTileForClimate, noiseClassify, isNearFeature_nil]

lemma zeroOracle_tile : tileFor zeroOracle 1 1 0 0 = { type := .sand, height := 0 } := by
  have h1 : getTileForClimate 0 .desert 0 0 [] [] = .sand := by
    rw [getTileForClimate_nil]
    norm_num [noiseClassify, CLIMATE_TILE_RULES, ltOpt]
  simp only [tileFor, zeroOracle, riverFor, coastFor, selectClimate, climateValues]
  norm_num [h1, getTileHeightForType]

/-- Closed witness for C2 at a concrete input. -/
theorem generateMap_height_invariant_witness :
    ∃ t, tileAt (generateMapCore zeroOracle 1 1) 0 0 = some t
      ∧ ((t.type = .snow → t.height = 2)
        ∧ (t.type = .rock →
            (t.height = 1 ∨ t.height = 2) ∧ (t.height = 2 ↔ zeroOracle.noise 0 0 > 5/10))
        ∧ (t.type = .water ∨ t.type = .sand ∨ t.type = .grass → t.height = 0)) := by
  have htile : tileAt (generateMapCore zeroOracle 1 1) 0 0
      = some { type := .sand, height := 0 } := by
    have h0 := tileAt_core zeroOracle 1 1 0 0 (by norm_num) (by norm_num)
    simpa [zeroOracle_tile] using h0
  exact ⟨_, htile,
    generateMap_height_invariant zeroOracle 1 1 (le_refl 1) (le_refl 1) _ rfl
      0 0 (by norm_num) (by norm_num) _ htile⟩

/-- Counterexample for C5: generateMap with zero dimensions returns
normally (no error) with an empty, degenerate map. -/
theorem generateMap_zero_dims_no_error :
    generateMap zeroOracle 0 0
      = Except.ok
          { map := []
            metadata := { climate := .desert, hasRiver := false, hasCoastline := false } } := by
  rfl

/-- C5 amended: generateMap performs no dimension validation; when the
width or the height is zero it returns successfully (never an error) and
the returned map is degenerate — every row list is empty. -/
theorem generateMap_zero_dims_degenerate (o : GenOracle) (w h : ℕ)
    (hz : w = 0 ∨ h = 0) :
    ∃ res, generateMap o w h = Except.ok res
      ∧ res.map.length = h ∧ ∀ row ∈ res.map, row = [] := by
  refine ⟨generateMapCore o w h, rfl, core_map_length o w h, ?_⟩
  intro row hrow
  unfold generateMapCore at hrow
  simp only [List.mem_map, List.mem_range] at hrow
  obtain ⟨y, hy, hrow⟩ := hrow
  rcases hz with hz | hz
  · subst hz
    simp only [List.range_zero, List.map_nil] at hrow
    exact hrow.symm
  · subst hz
    omega

/-- Closed witness for the C5 amended theorem. -/
theorem generateMap_zero_dims_degenerate_witness :
    ∃ res, generateMap zeroOracle 0 5 = Except.ok res
      ∧ res.map.length = 5 ∧ ∀ row ∈ res.map, row = [] :=
  generateMap_zero_dims_degenerate zeroOracle 0 5 (Or.inl rfl)

lemma tileFor_water_of_mem (o : GenOracle) (w h x y : ℕ)
    (hmem : ((x : ℤ), (y : ℤ)) ∈ riverFor o w h
      ∨ ((x : ℤ), (y : ℤ)) ∈ coastFor o w h) :
    (tileFor o w h x y).type = .water := by
  rcases hmem with hm | hm
  · simp [tileFor, getTileForClimate, hm]
  · by_cases hr : ((x : ℤ), (y : ℤ)) ∈ riverFor o w h
    · simp [tileFor, getTileForClimate, hr]
    · simp [tileFor, getTileForClimate, hr, hm]

lemma riverCenter_zero_bounds (w : ℕ) (hw : 1 ≤ w) (start : ℕ) (step : ℕ → ℕ) :
    0 ≤ riverCenter w start step 0 ∧ riverCenter w start step 0 < (w : ℤ) := by
  have hne : ¬ w = 0 := by omega
  simp only [riverCenter, hne, if_false]
  constructor
  · exact Int.ofNat_nonneg _
  · exact_mod_cast Nat.mod_lt start (by omega)

lemma start_mem_riverPath (w h : ℕ) (hw : 1 ≤ w) (hh : 1 ≤ h)
    (start : ℕ) (step : ℕ → ℕ) :
    (riverCenter w start step 0, (0 : ℤ)) ∈ generateRiverPath w h start step := by
  obtain ⟨hc0, hc1⟩ := riverCenter_zero_bounds w hw start step
  unfold generateRiverPath
  rw [List.mem_flatMap]
  refine ⟨0, List.mem_range.mpr (by omega), ?_⟩
  rw [List.mem_filter]
  constructor
  · unfold box3
    rw [List.mem_flatMap]
    refine ⟨0, by norm_num, ?_⟩
    rw [List.mem_map]
    exact ⟨0, by norm_num, by simp⟩
  · unfold inBoundsB
    simp only [decide_eq_true_eq]
    push_cast
    refine ⟨hc0, hc1, by norm_num, by exact_mod_cast hh⟩

lemma coastMaxDepth_ge_three (w h : ℕ) (hmin : 10 ≤ min w h) :
    3 ≤ coastMaxDepth w h := by
  unfold coastMaxDepth
  have hdiv : 3 ≤ (3 * min w h) / 10 := (Nat.le_div_iff_mul_le (by norm_num)).mpr (by omega)
  exact_mod_cast hdiv

lemma coastMaxDepth_lt_min (w h : ℕ) (hmin : 1 ≤ min w h) :
    coastMaxDepth w h < (min w h : ℤ) := by
  unfold coastMaxDepth
  have hdiv : (3 * min w h) / 10 < min w h := Nat.div_lt_of_lt_mul (by omega)
  exact_mod_cast hdiv

lemma coastline_has_cell (w h side : ℕ) (dr : ℕ → ℕ) (hmin : 10 ≤ min w h) :
    ∃ p : ℤ × ℤ, p ∈ generateCoastline w h side dr
      ∧ 0 ≤ p.1 ∧ p.1 < (w : ℤ) ∧ 0 ≤ p.2 ∧ p.2 < (h : ℤ) := by
  have h3 := coastMaxDepth_ge_three w h hmin
  have hlt := coastMaxDepth_lt_min w h (by omega)
  have hwmin : ((min w h : ℕ) : ℤ) ≤ (w : ℤ) := by exact_mod_cast Nat.min_le_left w h
  have hhmin : ((min w h : ℕ) : ℤ) ≤ (h : ℤ) := by exact_mod_cast Nat.min_le_right w h
  have hw1 : (1 : ℤ) ≤ (w : ℤ) := by omega
  have hh1 : (1 : ℤ) ≤ (h : ℤ) := by omega
  have hd1 : 1 ≤ coastDepthAt w h dr 0 := by
    unfold coastDepthAt
    have : (0 : ℤ) ≤ ((dr 0 % 3 : ℕ) : ℤ) := Int.ofNat_nonneg _
    omega
  have hd2 : coastDepthAt w h dr 0 ≤ coastMaxDepth w h := by
    unfold coastDepthAt
    have : ((dr 0 % 3 : ℕ) : ℤ) ≤ 2 := by exact_mod_cast Nat.le_of_lt_succ (Nat.mod_lt _ (by norm_num))
    omega
  have hdpos : 0 < (coastDepthAt w h dr 0).toNat := by omega
  rcases (show side % 4 = 0 ∨ side % 4 = 1 ∨ side % 4 = 2 ∨ side % 4 = 3 by omega)
    with h4 | h4 | h4 | h4 <;>
    unfold generateCoastline <;> rw [h4]
  · refine ⟨((0 : ℤ), (0 : ℤ)), ?_, by norm_num, by omega, by norm_num, by omega⟩
    rw [List.mem_flatMap]
    refine ⟨0, List.mem_range.mpr (by omega), ?_⟩
    rw [List.mem_map]
    exact ⟨0, List.mem_range.mpr hdpos, by simp⟩
  · refine ⟨((w : ℤ) - coastDepthAt w h dr 0, (0 : ℤ)), ?_, by omega, by omega,
      by norm_num, by omega⟩
    rw [List.mem_flatMap]
    refine ⟨0, List.mem_range.mpr (by omega), ?_⟩
    rw [List.mem_map]
    exact ⟨0, List.mem_range.mpr hdpos, by simp⟩
  · refine ⟨((0 : ℤ), (h : ℤ) - coastDepthAt w h dr 0), ?_, by norm_num, by omega,
      by omega, by omega⟩
    rw [List.mem_flatMap]
    refine ⟨0, List.mem_range.mpr (by omega), ?_⟩
    rw [List.mem_map]
    exact ⟨0, List.mem_range.mpr hdpos, by simp⟩
  · refine ⟨((0 : ℤ), (0 : ℤ)), ?_, by norm_num, by omega, by norm_num, by omega⟩
    rw [List.mem_flatMap]
    refine ⟨0, List.mem_range.mpr (by omega), ?_⟩
    rw [List.mem_map]
    exact ⟨0, List.mem_range.mpr hdpos, by simp⟩

lemma tile_mem_core (o : GenOracle) (w h x y : ℕ) (hx : x < w) (hy : y < h) :
    ∃ row ∈ (generateMapCore o w h).map, tileFor o w h x y ∈ row := by
  refine ⟨(List.range w).map fun i => tileFor o w h i y, ?_, ?_⟩
  · exact List.mem_map_of_mem _ (List.mem_range.mpr hy)
  · exact List.mem_map_of_mem _ (List.mem_range.mpr hx)

/-- C4 amended: whenever the returned metadata has hasRiver true, at least
one WATER tile exists; whenever it has hasCoastline true and the smaller
map dimension is at least 10, at least one WATER tile exists.  (For smaller
maps a rolled coastline can carve zero cells, since the drawn depth
maxDepth - 2 .. maxDepth can be non-positive.) -/
theorem water_feature_postcondition (o : GenOracle) (w h : ℕ)
    (hw : 1 ≤ w) (hh : 1 ≤ h) (res : TerrainResult)
    (hres : generateMap o w h = Except.ok res)
    (hfeat : res.metadata.hasRiver = true
      ∨ (res.metadata.hasCoastline = true ∧ 10 ≤ min w h)) :
    ∃ row ∈ res.map, ∃ t ∈ row, t.type = .water := by
  have hres2 : res = generateMapCore o w h := by
    simpa [generateMap] using hres.symm
  subst hres2
  rcases hfeat with hriv | ⟨hcoast, hmin⟩
  · have hroll : o.riverRoll = true := hriv
    have hrf : riverFor o w h = generateRiverPath w h o.riverStart o.riverStep := by
      simp [riverFor, hroll]
    obtain ⟨hc0, hc1⟩ := riverCenter_zero_bounds w hw o.riverStart o.riverStep
    set c := riverCenter w o.riverStart o.riverStep 0 with hceq
    have hxlt : c.toNat < w := by omega
    have hmem : ((c.toNat : ℤ), ((0 : ℕ) : ℤ)) ∈ riverFor o w h := by
      rw [hrf]
      have hcast : ((c.toNat : ℤ), ((0 : ℕ) : ℤ)) = (c, (0 : ℤ)) := by
        rw [Int.toNat_of_nonneg hc0]
        norm_num
      rw [hcast, hceq]
      exact start_mem_riverPath w h hw hh o.riverStart o.riverStep
    obtain ⟨row, hrow, htm⟩ := tile_mem_core o w h c.toNat 0 hxlt (by omega)
    exact ⟨row, hrow, tileFor o w h c.toNat 0, htm,
      tileFor_water_of_mem o w h c.toNat 0 (Or.inl hmem)⟩
  · have hroll : o.coastRoll = true := hcoast
    have hcf : coastFor o w h = generateCoastline w h o.coastSide o.coastDepth := by
      simp [coastFor, hroll]
    obtain ⟨p, hp, hp0, hp1, hp2, hp3⟩ :=
      coastline_has_cell w h o.coastSide o.coastDepth hmin
    have hxlt : p.1.toNat < w := by omega
    have hylt : p.2.toNat < h := by omega
    have hmem : ((p.1.toNat : ℤ), (p.2.toNat : ℤ)) ∈ coastFor o w h := by
      rw [hcf]
      have hcast : ((p.1.toNat : ℤ), (p.2.toNat : ℤ)) = p := by
        rw [Int.toNat_of_nonneg hp0, Int.toNat_of_nonneg hp2]
      rw [hcast]
      exact hp
    obtain ⟨row, hrow, htm⟩ := tile_mem_core o w h p.1.toNat p.2.toNat hxlt hylt
    exact ⟨row, hrow, tileFor o w h p.1.toNat p.2.toNat, htm,
      tileFor_water_of_mem o w h p.1.toNat p.2.toNat (Or.inr hmem)⟩

/-- The zero oracle with the river roll succeeding. -/
def riverOracle : GenOracle :=
  { zeroOracle with riverRoll := true }

/-- Closed witness for the C4 amended theorem. -/
theorem water_feature_postcondition_witness :
    ∃ row ∈ (generateMapCore riverOracle 1 1).map, ∃ t ∈ row, t.type = .water :=
  water_feature_postcondition riverOracle 1 1 (le_refl 1) (le_refl 1) _ rfl
    (Or.inl rfl)

/-- The zero oracle with the coastline roll succeeding. -/
def coastOnlyOracle : GenOracle :=
  { zeroOracle with coastRoll := true }

/-- Counterexample for C4 as stated: on a 1 by 1 map whose coastline roll
succeeded (and river roll failed), generateMap reports hasCoastline true
yet the single tile is SAND — no WATER tile exists, because the drawn
coastline depth maxDepth - 2 .. maxDepth is non-positive when
floor(min(width,height) * 0.3) = 0. -/
theorem coastline_without_water :
    generateMap coastOnlyOracle 1 1
      = Except.ok
          { map := [[{ type := .sand, height := 0 }]]
            metadata :=
              { climate := .desert, hasRiver := false, hasCoastline := true } } := by
  have hcoast : generateCoastline 1 1 0 (fun _ => 0) = [] := by
    norm_num [generateCoastline, coastDepthAt, coastMaxDepth]
  have htile : tileFor coastOnlyOracle 1 1 0 0 = { type := .sand, height := 0 } := by
    have h1 : getTileForClimate 0 .desert 0 0 [] [] = .sand := by
      rw [getTileForClimate_nil]
      norm_num [noiseClassify, CLIMATE_TILE_RULES, ltOpt]
    simp only [tileFor, coastOnlyOracle, zeroOracle, riverFor, coastFor,
      selectClimate, climateValues]
    norm_num [hcoast, h1, getTileHeightForType]
  simp only [generateMap, generateMapCore, Except.ok.injEq, TerrainResult.mk.injEq,
    TerrainMetadata.mk.injEq, List.range_succ, List.range_zero, List.nil_append,
    List.map_cons, List.map_nil, htile]
  exact ⟨trivial, rfl, rfl, rfl⟩

lemma core_getD (o : GenOracle) (w h a b : ℕ) (ha : a < w) (hb : b < h) :
    ((generateMapCore o w h).map.getD b []).getD a defTile = tileFor o w h a b := by
  unfold generateMapCore
  simp only
  rw [getD_map_range _ _ _ _ hb, getD_map_range _ _ _ _ ha]

lemma tileAt_core_inv {o : GenOracle} {w h : ℕ} {x y : ℤ} {t : Tile}
    (ht : tileAt (generateMapCore o w h) x y = some t) :
    ∃ a b : ℕ, a < w ∧ b < h ∧ x = (a : ℤ) ∧ y = (b : ℤ)
      ∧ t = tileFor o w h a b := by
  simp only [tileAt] at ht
  split_ifs at ht with h1 h2
  · have hb : y.toNat < h := by
      have h12 := h1.2
      rw [core_map_length] at h12
      omega
    have ha : x.toNat < w := by
      have h22 := h2.2
      rw [core_row_length o w h y.toNat hb] at h22
      omega
    refine ⟨x.toNat, y.toNat, ha, hb,
      (Int.toNat_of_nonneg h2.1).symm, (Int.toNat_of_nonneg h1.1).symm, ?_⟩
    rw [core_getD o w h x.toNat y.toNat ha hb] at ht
    exact (Option.some_injective _ ht).symm

lemma prairie_noiseClassify (v : ℚ) : noiseClassify v .prairie = .grass := by
  simp only [noiseClassify, CLIMATE_TILE_RULES, ltOpt]
  by_cases h1 : v < -1
  · simp [h1]
  · by_cases h2 : v < 1
    · simp [h1, h2]
    · have h4 : v > 0 := by linarith
      simp [h1, h2, h4]

lemma prairie_special_source {v : ℚ} {x y : ℤ} {R C : FeatureSet}
    (ht : getTileForClimate v .prairie x y R C = .rock
        ∨ getTileForClimate v .prairie x y R C = .sand
        ∨ getTileForClimate v .prairie x y R C = .snow) :
    (x, y) ∉ R ∧ (x, y) ∉ C
      ∧ (isNearFeature x y C 1 = true ∨ isNearFeature x y R 1 = true) := by
  unfold getTileForClimate at ht
  split_ifs at ht with hR hC hNC hNR
  · simp at ht
  · simp at ht
  · exact ⟨hR, hC, Or.inl (by simpa using hNC)⟩
  · exact ⟨hR, hC, Or.inr (by simpa using hNR.1)⟩
  · rw [prairie_noiseClassify] at ht
    simp at ht

lemma isNearFeature_one_witness {x y : ℤ} {s : FeatureSet}
    (hn : isNearFeature x y s 1 = true) :
    ∃ dx dy : ℤ, |dx| ≤ 1 ∧ |dy| ≤ 1 ∧ (x + dx, y + dy) ∈ s := by
  rw [isNearFeature_eq_specNear] at hn
  unfold specNear at hn
  rw [decide_eq_true_iff] at hn
  obtain ⟨p, hp, hle⟩ := hn
  unfold chebyshev at hle
  simp only [max_le_iff, abs_le] at hle
  refine ⟨p.1 - x, p.2 - y, by rw [abs_le]; omega, by rw [abs_le]; omega, ?_⟩
  simpa [show x + (p.1 - x) = p.1 from by ring,
    show y + (p.2 - y) = p.2 from by ring] using hp

lemma max_abs_eq_one {dx dy : ℤ} (h1 : |dx| ≤ 1) (h2 : |dy| ≤ 1)
    (h3 : ¬(dx = 0 ∧ dy = 0)) : max |dx| |dy| = 1 := by
  have hdx3 : dx = -1 ∨ dx = 0 ∨ dx = 1 := by
    have := abs_le.mp h1
    omega
  have hdy3 : dy = -1 ∨ dy = 0 ∨ dy = 1 := by
    have := abs_le.mp h2
    omega
  rcases hdx3 with rfl | rfl | rfl <;> rcases hdy3 with rfl | rfl | rfl <;>
    first
      | (exfalso; exact h3 ⟨rfl, rfl⟩)
      | decide

lemma riverPath_bounds {w h s : ℕ} {st : ℕ → ℕ} {p : ℤ × ℤ}
    (hp : p ∈ generateRiverPath w h s st) :
    0 ≤ p.1 ∧ p.1 < (w : ℤ) ∧ 0 ≤ p.2 ∧ p.2 < (h : ℤ) := by
  unfold generateRiverPath at hp
  rw [List.mem_flatMap] at hp
  obtain ⟨row, _, hp⟩ := hp
  rw [List.mem_filter] at hp
  have h2 := hp.2
  unfold inBoundsB at h2
  simpa using h2

lemma coastMaxDepth_pos_min (w h : ℕ) (hpos : 1 ≤ coastMaxDepth w h) :
    4 ≤ min w h := by
  unfold coastMaxDepth at hpos
  have h1 : 1 ≤ (3 * min w h) / 10 := by exact_mod_cast hpos
  have h2 : 1 * 10 ≤ 3 * min w h := (Nat.le_div_iff_mul_le (by norm_num)).mp h1
  omega

lemma coastDepthAt_le (w h : ℕ) (dr : ℕ → ℕ) (i : ℕ) :
    coastDepthAt w h dr i ≤ coastMaxDepth w h := by
  unfold coastDepthAt
  have hm : ((dr i % 3 : ℕ) : ℤ) ≤ 2 := by
    exact_mod_cast Nat.le_of_lt_succ (Nat.mod_lt _ (by norm_num))
  omega

lemma coastline_bounds {w h side : ℕ} {dr : ℕ → ℕ} {p : ℤ × ℤ}
    (hp : p ∈ generateCoastline w h side dr) :
    0 ≤ p.1 ∧ p.1 < (w : ℤ) ∧ 0 ≤ p.2 ∧ p.2 < (h : ℤ) := by
  have hwmin : ((min w h : ℕ) : ℤ) ≤ (w : ℤ) := by exact_mod_cast Nat.min_le_left w h
  have hhmin : ((min w h : ℕ) : ℤ) ≤ (h : ℤ) := by exact_mod_cast Nat.min_le_right w h
  unfold generateCoastline at hp
  rcases (show side % 4 = 0 ∨ side % 4 = 1 ∨ side % 4 = 2 ∨ side % 4 = 3 by omega)
    with h4 | h4 | h4 | h4 <;>
    rw [h4] at hp <;>
    simp only [List.mem_flatMap, List.mem_map, List.mem_range] at hp
  · obtain ⟨a, ha, j, hj, hpe⟩ := hp
    have hdle := coastDepthAt_le w h dr a
    have hpos : 1 ≤ coastMaxDepth w h := by omega
    have hm4 : 4 ≤ min w h := coastMaxDepth_pos_min w h hpos
    have hltm := coastMaxDepth_lt_min w h (by omega)
    subst hpe
    dsimp only
    omega
  · obtain ⟨a, ha, j, hj, hpe⟩ := hp
    have hdle := coastDepthAt_le w h dr a
    have hpos : 1 ≤ coastMaxDepth w h := by omega
    have hm4 : 4 ≤ min w h := coastMaxDepth_pos_min w h hpos
    have hltm := coastMaxDepth_lt_min w h (by omega)
    subst hpe
    dsimp only
    omega
  · obtain ⟨a, ha, j, hj, hpe⟩ := hp
    have hdle := coastDepthAt_le w h dr a
    have hpos : 1 ≤ coastMaxDepth w h := by omega
    have hm4 : 4 ≤ min w h := coastMaxDepth_pos_min w h hpos
    have hltm := coastMaxDepth_lt_min w h (by omega)
    subst hpe
    dsimp only
    omega
  · obtain ⟨a, ha, j, hj, hpe⟩ := hp
    have hdle := coastDepthAt_le w h dr a
    have hpos : 1 ≤ coastMaxDepth w h := by omega
    have hm4 : 4 ≤ min w h := coastMaxDepth_pos_min w h hpos
    have hltm := coastMaxDepth_lt_min w h (by omega)
    subst hpe
    dsimp only
    omega

lemma riverFor_bounds {o : GenOracle} {w h : ℕ} {p : ℤ × ℤ}
    (hp : p ∈ riverFor o w h) :
    0 ≤ p.1 ∧ p.1 < (w : ℤ) ∧ 0 ≤ p.2 ∧ p.2 < (h : ℤ) := by
  unfold riverFor at hp
  by_cases hr : o.riverRoll
  · rw [if_pos hr] at hp
    exact riverPath_bounds hp
  · rw [if_neg hr] at hp
    simp at hp

lemma coastFor_bounds {o : GenOracle} {w h : ℕ} {p : ℤ × ℤ}
    (hp : p ∈ coastFor o w h) :
    0 ≤ p.1 ∧ p.1 < (w : ℤ) ∧ 0 ≤ p.2 ∧ p.2 < (h : ℤ) := by
  unfold coastFor at hp
  by_cases hr : o.coastRoll
  · rw [if_pos hr] at hp
    exact coastline_bounds hp
  · rw [if_neg hr] at hp
    simp at hp

/-- C7: in every generated map whose climate is PRAIRIE, every tile of type
ROCK, SAND or SNOW has a tile of type WATER among its 8-neighborhood
neighbors. -/
theorem prairie_special_tiles_near_water (o : GenOracle) (w h : ℕ)
    (res : TerrainResult) (hres : generateMap o w h = Except.ok res)
    (hclim : res.metadata.climate = .prairie)
    (x y : ℤ) (t : Tile) (ht : tileAt res x y = some t)
    (htype : t.type = .rock ∨ t.type = .sand ∨ t.type = .snow) :
    ∃ dx dy : ℤ, max |dx| |dy| = 1
      ∧ ∃ u : Tile, tileAt res (x + dx) (y + dy) = some u ∧ u.type = .water := by
  have hres2 : res = generateMapCore o w h := by
    simpa [generateMap] using hres.symm
  subst hres2
  obtain ⟨a, b, ha, hb, hxa, hyb, htt⟩ := tileAt_core_inv ht
  subst hxa
  subst hyb
  subst htt
  have hsc : selectClimate o.climateIdx = .prairie := hclim
  have htype2 : getTileForClimate (o.noise a b) .prairie a b
      (riverFor o w h) (coastFor o w h) = .rock
    ∨ getTileForClimate (o.noise a b) .prairie a b
      (riverFor o w h) (coastFor o w h) = .sand
    ∨ getTileForClimate (o.noise a b) .prairie a b
      (riverFor o w h) (coastFor o w h) = .snow := by
    simpa [tileFor, hsc] using htype
  obtain ⟨hnR, hnC, hnear⟩ := prairie_special_source htype2
  rcases hnear with hnear | hnear
  · obtain ⟨dx, dy, hdx, hdy, hmem⟩ := isNearFeature_one_witness hnear
    have hFb := coastFor_bounds hmem
    have hne : ¬(dx = 0 ∧ dy = 0) := by
      rintro ⟨rfl, rfl⟩
      exact hnC (by simpa using hmem)
    obtain ⟨hF0, hF1, hF2, hF3⟩ := hFb
    have hnxc : ((a : ℤ) + dx) = ((((a : ℤ) + dx).toNat : ℕ) : ℤ) :=
      (Int.toNat_of_nonneg hF0).symm
    have hnyc : ((b : ℤ) + dy) = ((((b : ℤ) + dy).toNat : ℕ) : ℤ) :=
      (Int.toNat_of_nonneg hF2).symm
    have hnxw : ((a : ℤ) + dx).toNat < w := by omega
    have hnyh : ((b : ℤ) + dy).toNat < h := by omega
    have hmem2 : (((((a : ℤ) + dx).toNat : ℕ) : ℤ),
        ((((b : ℤ) + dy).toNat : ℕ) : ℤ)) ∈ coastFor o w h := by
      rw [← hnxc, ← hnyc]
      exact hmem
    refine ⟨dx, dy, max_abs_eq_one hdx hdy hne,
      tileFor o w h ((a : ℤ) + dx).toNat ((b : ℤ) + dy).toNat, ?_, ?_⟩
    · rw [hnxc, hnyc]
      exact tileAt_core o w h _ _ hnxw hnyh
    · exact tileFor_water_of_mem o w h _ _ (Or.inr hmem2)
  · obtain ⟨dx, dy, hdx, hdy, hmem⟩ := isNearFeature_one_witness hnear
    have hFb := riverFor_bounds hmem
    have hne : ¬(dx = 0 ∧ dy = 0) := by
      rintro ⟨rfl, rfl⟩
      exact hnR (by simpa using hmem)
    obtain ⟨hF0, hF1, hF2, hF3⟩ := hFb
    have hnxc : ((a : ℤ) + dx) = ((((a : ℤ) + dx).toNat : ℕ) : ℤ) :=
      (Int.toNat_of_nonneg hF0).symm
    have hnyc : ((b : ℤ) + dy) = ((((b : ℤ) + dy).toNat : ℕ) : ℤ) :=
      (Int.toNat_of_nonneg hF2).symm
    have hnxw : ((a : ℤ) + dx).toNat < w := by omega
    have hnyh : ((b : ℤ) + dy).toNat < h := by omega
    have hmem2 : (((((a : ℤ) + dx).toNat : ℕ) : ℤ),
        ((((b : ℤ) + dy).toNat : ℕ) : ℤ)) ∈ riverFor o w h := by
      rw [← hnxc, ← hnyc]
      exact hmem
    refine ⟨dx, dy, max_abs_eq_one hdx hdy hne,
      tileFor o w h ((a : ℤ) + dx).toNat ((b : ℤ) + dy).toNat, ?_, ?_⟩
    · rw [hnxc, hnyc]
      exact tileAt_core o w h _ _ hnxw hnyh
    · exact tileFor_water_of_mem o w h _ _ (Or.inl hmem2)

/-- An oracle selecting PRAIRIE with a successful coastline roll on a
10 by 10 map: a one-cell-deep coastline along the top edge. -/
def prairieOracle : GenOracle :=
  { climateIdx := 1, riverRoll := false, coastRoll := true, riverStart := 0
    riverStep := fun _ => 0, coastSide := 0, coastDepth := fun _ => 0
    noise := fun _ _ => 0 }

lemma prairieCoast_eval :
    generateCoastline 10 10 0 (fun _ => 0)
      = [((0 : ℤ), (0 : ℤ)), (1, 0), (2, 0), (3, 0), (4, 0),
         (5, 0), (6, 0), (7, 0), (8, 0), (9, 0)] := by
  rfl

lemma prairie_witness_tile :
    tileAt (generateMapCore prairieOracle 10 10) 0 1
      = some { type := .sand, height := 0 } := by
  have hnear : isNearFeature 0 1 (generateCoastline 10 10 0 (fun _ => 0)) 1 = true := by
    unfold isNearFeature
    rw [decide_eq_true_iff]
    refine ⟨1, by norm_num, 0, by norm_num, ?_⟩
    rw [prairieCoast_eval]
    norm_num
  have hnotmem : ((0 : ℤ), (1 : ℤ)) ∉ generateCoastline 10 10 0 (fun _ => 0) := by
    rw [prairieCoast_eval]
    norm_num
  have htf : tileFor prairieOracle 10 10 0 1 = { type := .sand, height := 0 } := by
    have hcl : getTileForClimate 0 .prairie 0 1 []
        (generateCoastline 10 10 0 (fun _ => 0)) = .sand := by
      unfold getTileForClimate
      rw [if_neg (by simp), if_neg hnotmem, if_pos hnear]
    simp only [tileFor, prairieOracle, riverFor, coastFor, selectClimate, climateValues]
    norm_num [hcl, getTileHeightForType]
  have h0 := tileAt_core prairieOracle 10 10 0 1 (by norm_num) (by norm_num)
  simpa [htf] using h0

/-- Closed witness for C7 at a concrete input. -/
theorem prairie_special_tiles_near_water_witness :
    ∃ dx dy : ℤ, max |dx| |dy| = 1
      ∧ ∃ u : Tile, tileAt (generateMapCore prairieOracle 10 10) (0 + dx) (1 + dy)
          = some u ∧ u.type = .water :=
  prairie_special_tiles_near_water prairieOracle 10 10 _ rfl rfl 0 1
    { type := .sand, height := 0 } prairie_witness_tile (Or.inr (Or.inl rfl))

/-- A tree record (trees.js lines 150-162).  The Phaser sprite handle is
rendering state and is omitted; every data field consulted by the manager
logic (grid cell, offsets, screen position, kind, height, depth, id) is
kept. -/
structure Tree where
  mapX : ℤ
  mapY : ℤ
  offsetX : ℚ
  offsetY : ℚ
  screenX : ℚ
  screenY : ℚ
  type : String
  height : ℤ
  depth : ℤ
  id : String
deriving DecidableEq

/-- TreeManager state (trees.js lines 13-64): map geometry configuration
plus the owned tree list.  The climate configuration table is static data,
embedded separately below. -/
structure TreeManager where
  mapWidth : ℕ
  mapHeight : ℕ
  tileWidth : ℚ
  tileHeight : ℚ
  mapCenterX : ℚ
  mapCenterY : ℚ
  trees : List Tree
deriving DecidableEq

/-- One entry of climateTreeConfig (trees.js lines 30-56). -/
structure TreeClimateConfig where
  spawnProbability : ℚ
  maxTreesPerTile : ℕ
  treeSpacing : ℚ
deriving DecidableEq

/-- climateTreeConfig from trees.js lines 30-56. -/
def climateTreeConfig : Climate → TreeClimateConfig
  | .desert => { spawnProbability := 2/100, maxTreesPerTile := 1, treeSpacing := 8/10 }
  | .prairie => { spawnProbability := 15/100, maxTreesPerTile := 2, treeSpacing := 6/10 }
  | .sparseForest => { spawnProbability := 35/100, maxTreesPerTile := 3, treeSpacing := 4/10 }
  | .denseForest => { spawnProbability := 65/100, maxTreesPerTile := 5, treeSpacing := 2/10 }
  | .highMountain => { spawnProbability := 8/100, maxTreesPerTile := 1, treeSpacing := 7/10 }

/-- defaultTreeConfig from trees.js lines 59-63. -/
def defaultTreeConfig : TreeClimateConfig :=
  { spawnProbability := 2/10, maxTreesPerTile := 2, treeSpacing := 5/10 }

/-- this.climateTreeConfig[climate] || this.defaultTreeConfig: the climate
argument is a string key; an unrecognized one falls back to the default
configuration, modelled with Option Climate. -/
def configFor : Option Climate → TreeClimateConfig
  | some c => climateTreeConfig c
  | none => defaultTreeConfig

/-- TreeManager.mapToIsometric (trees.js lines 246-255). -/
def TreeManager.mapToIsometric (tm : TreeManager) (mapX mapY : ℤ)
    (tileHeight : ℤ) : ℚ × ℚ :=
  let heightOffset : ℚ := 20
  let isoX := ((mapX : ℚ) - (mapY : ℚ)) * tm.tileWidth / 2
  let isoY := ((mapX : ℚ) + (mapY : ℚ)) * tm.tileHeight / 2
    - (tileHeight : ℚ) * heightOffset
  (tm.mapCenterX + isoX, tm.mapCenterY + isoY)

/-- TreeManager.spawnTree (trees.js lines 133-166).  The source performs no
coordinate or map-data validation at all: it builds the tree, pushes it and
returns it on every call; the Option in the result type mirrors the
registry interface of an operation that could fail, and here is always
some. -/
def TreeManager.spawnTree (tm : TreeManager) (mapX mapY : ℤ)
    (offsetX offsetY : ℚ) (tileHeight : ℤ) (treeType newId : String) :
    Option Tree × TreeManager :=
  let isoPosition := tm.mapToIsometric mapX mapY tileHeight
  let finalX := isoPosition.1 + offsetX
  let finalY := isoPosition.2 + offsetY
  let sortKey := mapY * tm.mapWidth + mapX - tileHeight * 1000
  let treeDepth := tileHeight * 100 + sortKey + 10000
  let treeData : Tree :=
    { mapX := mapX, mapY := mapY, offsetX := offsetX, offsetY := offsetY
      screenX := finalX, screenY := finalY, type := treeType
      height := tileHeight, depth := treeDepth, id := newId }
  (some treeData, { tm with trees := tm.trees ++ [treeData] })

/-- TreeManager.canSpawnTreeOnTile (trees.js lines 262-265): trees spawn
only on grass tiles. -/
def canSpawnTreeOnTile (tileType : TileType) : Bool :=
  tileType == .grass

/-- TreeManager.calculateTreesForTile (trees.js lines 99-106): zero when
the spawn roll fails, otherwise a uniform draw in 1..maxTreesPerTile.  The
Bool argument is the outcome of the comparison of Math.random() against
spawnProbability, the Nat argument the uniform count draw taken modulo
maxTreesPerTile. -/
def calculateTreesForTile (config : TreeClimateConfig) (spawnRoll : Bool)
    (countDraw : ℕ) : ℕ :=
  if !spawnRoll then 0
  else countDraw % config.maxTreesPerTile + 1

/-- TreeManager.spawnTreeWithRandomPosition (trees.js lines 116-122): the
two raw uniform draws r1, r2 are shifted by one half and scaled by the tile
size and the climate spacing factor. -/
def TreeManager.spawnTreeWithRandomPosition (tm : TreeManager) (mapX mapY : ℤ)
    (config : TreeClimateConfig) (tileHeight : ℤ) (r1 r2 : ℚ)
    (treeType newId : String) : Option Tree × TreeManager :=
  let offsetX := (r1 - 1/2) * tm.tileWidth * config.treeSpacing
  let offsetY := (r2 - 1/2) * tm.tileHeight * config.treeSpacing
  tm.spawnTree mapX mapY offsetX offsetY tileHeight treeType newId

/-- One execution's worth of Math.random outcomes (and id draws) for
generateTrees, indexed by cell and by tree index within the cell. -/
structure TreeOracle where
  spawnRoll : ℕ → ℕ → Bool
  countDraw : ℕ → ℕ → ℕ
  offDraw : ℕ → ℕ → ℕ → ℚ × ℚ
  typeDraw : ℕ → ℕ → ℕ → String
  idDraw : ℕ → ℕ → ℕ → String

/-- The lookup map[y][x] performed by generateTrees: none when the row or
the cell is missing (in JavaScript the subsequent property access would
throw). -/
def mapLookup (map : List (List Tile)) (x y : ℕ) : Option Tile :=
  (map[y]?).bind fun row => row[x]?

/-- The inner loop of generateTrees spawning the drawn number of trees on
one eligible cell (trees.js lines 86-88). -/
def spawnLoop (o : TreeOracle) (x y : ℕ) (config : TreeClimateConfig)
    (tileHeight : ℤ) (l : List ℕ) (tm : TreeManager) : TreeManager :=
  l.foldl (fun acc i =>
    (acc.spawnTreeWithRandomPosition x y config tileHeight
      (o.offDraw x y i).1 (o.offDraw x y i).2
      (o.typeDraw x y i) (o.idDraw x y i)).2) tm

/-- TreeManager.generateTrees (trees.js lines 71-92): clear the registry,
then scan the mapHeight-by-mapWidth grid, spawning a drawn number of trees
on every grass cell.  Reading a cell the map does not contain throws in
JavaScript, modelled as Except.error. -/
def TreeManager.generateTrees (tm : TreeManager) (o : TreeOracle)
    (map : List (List Tile)) (climate : Option Climate) :
    Except String TreeManager :=
  let config := configFor climate
  (List.range tm.mapHeight).foldlM (fun acc y =>
    (List.range tm.mapWidth).foldlM (fun acc2 x =>
      match mapLookup map x y with
      | none => Except.error "TypeError: cannot read properties of undefined"
      | some tileData =>
        if canSpawnTreeOnTile tileData.type then
          Except.ok (spawnLoop o x y config tileData.height
            (List.range (calculateTreesForTile config (o.spawnRoll x y)
              (o.countDraw x y))) acc2)
        else Except.ok acc2) acc)
    { tm with trees := [] }

lemma exceptOk_bind {α β : Type} (a : α) (g : α → Except String β) :
    (Except.ok a >>= g) = g a := rfl

lemma exceptError_bind {α β : Type} (e : String) (g : α → Except String β) :
    ((Except.error e : Except String α) >>= g) = Except.error e := rfl

lemma foldlM_except_inv {α β : Type} (P : β → Prop) (f : β → α → Except String β)
    (hstep : ∀ b a b2, P b → f b a = Except.ok b2 → P b2) :
    ∀ (l : List α) (b0 bend : β), l.foldlM f b0 = Except.ok bend → P b0 → P bend := by
  intro l
  induction l with
  | nil =>
    intro b0 bend hres h0
    simp only [List.foldlM_nil] at hres
    cases hres
    exact h0
  | cons a l ih =>
    intro b0 bend hres h0
    rw [List.foldlM_cons] at hres
    cases hfa : f b0 a with
    | error e =>
      rw [hfa, exceptError_bind] at hres
      exact absurd hres (by simp)
    | ok b1 =>
      rw [hfa, exceptOk_bind] at hres
      exact ih b1 bend hres (hstep b0 a b1 h0 hfa)

/-- A registered tree standing on a grass cell of the given map. -/
def treeOnGrass (map : List (List Tile)) (t : Tree) : Prop :=
  ∃ x y : ℕ, t.mapX = (x : ℤ) ∧ t.mapY = (y : ℤ)
    ∧ ∃ tile, mapLookup map x y = some tile ∧ tile.type = .grass

lemma spawnLoop_trees (o : TreeOracle) (x y : ℕ) (config : TreeClimateConfig)
    (th : ℤ) (l : List ℕ) (tm : TreeManager) :
    ∀ t ∈ (spawnLoop o x y config th l tm).trees,
      t ∈ tm.trees ∨ (t.mapX = (x : ℤ) ∧ t.mapY = (y : ℤ)) := by
  induction l generalizing tm with
  | nil => exact fun t ht => Or.inl ht
  | cons i l ih =>
    intro t ht
    have hstep : spawnLoop o x y config th (i :: l) tm
        = spawnLoop o x y config th l
          ((tm.spawnTreeWithRandomPosition x y config th
            (o.offDraw x y i).1 (o.offDraw x y i).2
            (o.typeDraw x y i) (o.idDraw x y i)).2) := rfl
    rw [hstep] at ht
    rcases ih _ t ht with hin | hxy
    · simp only [TreeManager.spawnTreeWithRandomPosition, TreeManager.spawnTree,
        List.mem_append] at hin
      rcases hin with h | h
      · exact Or.inl h
      · have ht2 := List.mem_singleton.mp h
        subst ht2
        exact Or.inr ⟨rfl, rfl⟩
    · exact Or.inr hxy

/-- C10: generateTrees first clears the registry — its result does not
depend on the previously registered trees — and every tree it registers
stands on a cell of the given map whose tile type is grass. -/
theorem generateTrees_resets_and_grass (tm : TreeManager) (o : TreeOracle)
    (map : List (List Tile)) (climate : Option Climate) (tm2 : TreeManager)
    (hgen : tm.generateTrees o map climate = Except.ok tm2) :
    (∀ prior : List Tree,
      TreeManager.generateTrees { tm with trees := prior } o map climate
        = Except.ok tm2)
    ∧ ∀ t ∈ tm2.trees, treeOnGrass map t := by
  constructor
  · intro prior
    exact hgen
  · have hinner : ∀ y (b : TreeManager) (x : ℕ) (b2 : TreeManager),
        (∀ t ∈ b.trees, treeOnGrass map t) →
        (match mapLookup map x y with
          | none => Except.error "TypeError: cannot read properties of undefined"
          | some tileData =>
            if canSpawnTreeOnTile tileData.type then
              Except.ok (spawnLoop o x y (configFor climate) tileData.height
                (List.range (calculateTreesForTile (configFor climate)
                  (o.spawnRoll x y) (o.countDraw x y))) b)
            else Except.ok b) = Except.ok b2 →
        ∀ t ∈ b2.trees, treeOnGrass map t := by
      intro y b x b2 hP hok
      cases hml : mapLookup map x y with
      | none => rw [hml] at hok; exact absurd hok (by simp)
      | some tileData =>
        rw [hml] at hok
        dsimp only at hok
        by_cases hcs : canSpawnTreeOnTile tileData.type = true
        · rw [if_pos hcs] at hok
          have hb2 : b2 = spawnLoop o x y (configFor climate) tileData.height
              (List.range (calculateTreesForTile (configFor climate)
                (o.spawnRoll x y) (o.countDraw x y))) b :=
            (Option.some_injective _ (by exact congrArg Except.toOption hok)).symm
          subst hb2
          intro t ht
          rcases spawnLoop_trees o x y (configFor climate) tileData.height _ b t ht
            with hin | ⟨hx, hy⟩
          · exact hP t hin
          · have hgr : tileData.type = .grass := by
              simpa [canSpawnTreeOnTile] using hcs
            exact ⟨x, y, hx, hy, tileData, hml, hgr⟩
        · rw [if_neg hcs] at hok
          cases hok
          exact hP
    intro t ht
    refine foldlM_except_inv (fun acc => ∀ u ∈ acc.trees, treeOnGrass map u)
      _ ?_ _ _ _ hgen ?_ t ht
    · intro b y b2 hP hok
      exact foldlM_except_inv (fun acc => ∀ u ∈ acc.trees, treeOnGrass map u)
        _ (fun b3 x b4 hP2 hok2 => hinner y b3 x b4 hP2 hok2) _ _ _ hok hP
    · intro u hu
      simp at hu

/-- The concrete manager and oracle witnessing C10. -/
def sampleTreeManager : TreeManager :=
  { mapWidth := 1, mapHeight := 1, tileWidth := 128, tileHeight := 64
    mapCenterX := 0, mapCenterY := 0, trees := [] }

/-- A tree oracle whose spawn roll always fails. -/
def quietTreeOracle : TreeOracle :=
  { spawnRoll := fun _ _ => false, countDraw := fun _ _ => 0
    offDraw := fun _ _ _ => (0, 0), typeDraw := fun _ _ _ => "tree_1"
    idDraw := fun _ _ _ => "tree_id_0" }

/-- Closed witness for C10 at a concrete input. -/
theorem generateTrees_resets_and_grass_witness :
    (∀ prior : List Tree,
      TreeManager.generateTrees { sampleTreeManager with trees := prior }
        quietTreeOracle [[{ type := .grass, height := 0 }]] (some .prairie)
        = Except.ok sampleTreeManager)
    ∧ ∀ t ∈ sampleTreeManager.trees,
        treeOnGrass [[{ type := .grass, height := 0 }]] t :=
  generateTrees_resets_and_grass sampleTreeManager quietTreeOracle
    [[{ type := .grass, height := 0 }]] (some .prairie) sampleTreeManager rfl

/-- The mapData reference held by the tent manager and the NPCs: possibly
absent entirely (null), with possibly missing rows and cells. -/
abbrev MapData := Option (List (List (Option Tile)))

/-- The JavaScript read chain mapData and mapData[y] and mapData[y][x]:
none as soon as any link is missing (negative indices read undefined). -/
def mdAt (md : MapData) (x y : ℤ) : Option Tile :=
  match md with
  | none => none
  | some rows =>
    if 0 ≤ x ∧ 0 ≤ y then
      match rows[y.toNat]? with
      | none => none
      | some row =>
        match row[x.toNat]? with
        | none => none
        | some cell => cell
    else none

/-- A tent record (the Tent class of tents.js): the identifier and the
map cell; sprite and geometry configuration are rendering state. -/
structure Tent where
  id : ℕ
  mapX : ℤ
  mapY : ℤ
deriving DecidableEq

/-- TentManager state (tents.js lines 618-631). -/
structure TentManager where
  mapWidth : ℤ
  mapHeight : ℤ
  tents : List Tent
  nextTentId : ℕ
  mapData : MapData

/-- TentManager.createTent from tents.js lines 636-666: position validated
against the map bounds, then against the presence of tile data; on failure
the call returns null and the registry is untouched, otherwise the new tent
is appended and returned. -/
def TentManager.createTent (tm : TentManager) (mapX mapY : ℤ) :
    Option Tent × TentManager :=
  if mapX < 0 ∨ tm.mapWidth ≤ mapX ∨ mapY < 0 ∨ tm.mapHeight ≤ mapY then
    (none, tm)
  else if (mdAt tm.mapData mapX mapY).isNone then
    (none, tm)
  else
    let tent : Tent := { id := tm.nextTentId, mapX := mapX, mapY := mapY }
    (some tent,
      { tm with tents := tm.tents ++ [tent], nextTentId := tm.nextTentId + 1 })

/-- Counterexample for C6 as stated: TreeManager.spawnTree performs no
validation — called out of bounds on an empty five-by-five manager it still
returns a tree (not null) and grows the collection. -/
theorem spawnTree_out_of_bounds_succeeds :
    ((sampleTreeManager.spawnTree (-1) 5 0 0 0 "tree_1" "tree_id_1").1).isSome = true
    ∧ ((sampleTreeManager.spawnTree (-1) 5 0 0 0 "tree_1" "tree_id_1").2).trees.length
        = sampleTreeManager.trees.length + 1 := by
  exact ⟨rfl, rfl⟩

/-- C6 amended: TentManager.createTent called with coordinates outside the
map bounds, or for a cell at which the backing map has no tile data,
returns null and leaves the manager (its tent collection included)
unchanged; TreeManager.spawnTree performs no such validation and always
registers and returns a new tree. -/
theorem registry_create_validation :
    (∀ (tm : TentManager) (x y : ℤ),
      ((x < 0 ∨ tm.mapWidth ≤ x ∨ y < 0 ∨ tm.mapHeight ≤ y)
        ∨ mdAt tm.mapData x y = none) →
      tm.createTent x y = (none, tm))
    ∧ ∀ (tr : TreeManager) (x y : ℤ) (ox oy : ℚ) (th : ℤ) (tt nid : String),
        ∃ t : Tree, tr.spawnTree x y ox oy th tt nid
          = (some t, { tr with trees := tr.trees ++ [t] }) := by
  constructor
  · intro tm x y hbad
    unfold TentManager.createTent
    rcases hbad with hoob | hmd
    · rw [if_pos hoob]
    · by_cases hoob : x < 0 ∨ tm.mapWidth ≤ x ∨ y < 0 ∨ tm.mapHeight ≤ y
      · rw [if_pos hoob]
      · rw [if_neg hoob, if_pos (by simp [hmd])]
  · intro tr x y ox oy th tt nid
    exact ⟨_, rfl⟩

/-- A concrete tent manager for the C6 witness. -/
def sampleTentManager : TentManager :=
  { mapWidth := 5, mapHeight := 5, tents := [], nextTentId := 1
    mapData := some [[some { type := .grass, height := 0 }]] }

/-- Closed witness for the C6 amended theorem. -/
theorem registry_create_validation_witness :
    sampleTentManager.createTent (-1) 2 = (none, sampleTentManager)
    ∧ ∃ t : Tree, sampleTreeManager.spawnTree 0 0 0 0 0 "tree_1" "tree_id_2"
        = (some t, { sampleTreeManager with
            trees := sampleTreeManager.trees ++ [t] }) :=
  ⟨registry_create_validation.1 sampleTentManager (-1) 2 (Or.inl (by norm_num)),
   registry_create_validation.2 sampleTreeManager 0 0 0 0 0 "tree_1" "tree_id_2"⟩

/-- The radius test of TreeManager.getTreesInRadius (trees.js lines
311-336): the source compares sqrt(dx*dx + dy*dy) against
radius * tileWidth / 2; squaring both sides (with the bound required
non-negative, since a square root never is below a negative bound) is an
exact model. -/
def withinDist (dx dy bound : ℚ) : Bool :=
  decide (0 ≤ bound ∧ dx ^ 2 + dy ^ 2 ≤ bound ^ 2)

/-- TreeManager.getTreesInRadius (trees.js lines 324-336): a circular query
on the projected isometric plane around the cell's screen position (the
centre is computed with the default tile height 0). -/
def TreeManager.getTreesInRadius (tm : TreeManager) (mapX mapY : ℤ)
    (radius : ℚ) : List Tree :=
  let centerIso := tm.mapToIsometric mapX mapY 0
  tm.trees.filter fun tree =>
    withinDist (centerIso.1 - tree.screenX) (centerIso.2 - tree.screenY)
      (radius * (tm.tileWidth / 2))

/-- NPC_STATES from npcs.js lines 9-13.  The moving constant exists in the
source but is never assigned; movement-in-progress is the separate isMoving
flag. -/
inductive NpcState
  | searching
  | placeFound
  | moving
deriving DecidableEq

/-- NPC state (npcs.js lines 18-50).  Sprite and pixel-geometry fields are
rendering state and are omitted; the in-flight tween started by move() is
modelled explicitly as the pending target cell (committed by the tween
completion callback), per the spec's movement-representation note. -/
structure NPC where
  id : ℕ
  mapX : ℤ
  mapY : ℤ
  state : NpcState
  lastStateCheck : ℤ
  stateCheckInterval : ℤ
  moveSpeed : ℤ
  lastMove : ℤ
  isMoving : Bool
  mapWidth : ℤ
  mapHeight : ℤ
  mapData : MapData
  treeManager : Option TreeManager
  moveTarget : Option (ℤ × ℤ)

/-- NPC.isValidPosition from npcs.js lines 196-212. -/
def NPC.isValidPosition (npc : NPC) (mapX mapY : ℤ) : Bool :=
  if mapX < 0 ∨ npc.mapWidth ≤ mapX ∨ mapY < 0 ∨ npc.mapHeight ≤ mapY then
    false
  else
    match mdAt npc.mapData mapX mapY with
    | none => false
    | some tileData =>
      !(tileData.type == TileType.water
        || tileData.type == TileType.rock
        || tileData.type == TileType.snow)

/-- NPC.hasTreeNearby from npcs.js lines 132-138: at least one tree within
radius 0.2 of the exact cell. -/
def NPC.hasTreeNearby (npc : NPC) (mapX mapY : ℤ) : Bool :=
  match npc.treeManager with
  | none => false
  | some tmgr => decide (0 < (tmgr.getTreesInRadius mapX mapY (2/10)).length)

/-- NPC.isNicePlace from npcs.js lines 106-127: in bounds, tile data
present, SAND or GRASS, and a tree nearby. -/
def NPC.isNicePlace (npc : NPC) (mapX mapY : ℤ) : Bool :=
  if mapX < 0 ∨ npc.mapWidth ≤ mapX ∨ mapY < 0 ∨ npc.mapHeight ≤ mapY then
    false
  else
    match mdAt npc.mapData mapX mapY with
    | none => false
    | some tileData =>
      if tileData.type ≠ TileType.sand ∧ tileData.type ≠ TileType.grass then
        false
      else npc.hasTreeNearby mapX mapY

/-- NPC.checkCurrentPosition from npcs.js lines 95-100: flip to PLACE_FOUND
when the current cell is a nice place. -/
def NPC.checkCurrentPosition (npc : NPC) : NPC :=
  if npc.isNicePlace npc.mapX npc.mapY then
    { npc with state := .placeFound }
  else npc

/-- NPC.move from npcs.js lines 143-191: choose uniformly among the valid
axis-aligned neighbors (no-op when none or when already moving) and start
the movement tween toward the chosen cell.  The choice argument is the
uniform draw. -/
def NPC.move (npc : NPC) (choice : ℕ) : NPC :=
  if npc.isMoving then npc
  else
    let directions : List (ℤ × ℤ) := [(0, -1), (1, 0), (0, 1), (-1, 0)]
    let validMoves := directions.filter fun d =>
      npc.isValidPosition (npc.mapX + d.1) (npc.mapY + d.2)
    if validMoves.length = 0 then npc
    else
      let mv := validMoves.getD (choice % validMoves.length) (0, 0)
      { npc with
        isMoving := true
        moveTarget := some (npc.mapX + mv.1, npc.mapY + mv.2) }

/-- The tween completion callback of NPC.move (npcs.js lines 184-189):
commit the authoritative cell and clear the moving flag.  Driven by the
engine when the tween's duration elapses, not by update itself. -/
def NPC.completeMove (npc : NPC) : NPC :=
  match npc.moveTarget with
  | none => npc
  | some t =>
    { npc with mapX := t.1, mapY := t.2, isMoving := false, moveTarget := none }

/-- NPC.update from npcs.js lines 75-90: only a SEARCHING, non-moving NPC
does anything — a position check at every stateCheckInterval and a move
attempt at every moveSpeed interval. -/
def NPC.update (npc : NPC) (time : ℤ) (choice : ℕ) : NPC :=
  if npc.state = .searching ∧ npc.isMoving = false then
    let npc1 :=
      if time - npc.lastStateCheck ≥ npc.stateCheckInterval then
        { npc.checkCurrentPosition with lastStateCheck := time }
      else npc
    if time - npc1.lastMove ≥ npc1.moveSpeed then
      { npc1.move choice with lastMove := time }
    else npc1
  else npc

/-- C8: isValidPosition is false out of bounds and on WATER, ROCK and SNOW
tiles, and true on every in-bounds cell whose tile data is SAND or GRASS. -/
theorem isValidPosition_spec (npc : NPC) (x y : ℤ) :
    ((x < 0 ∨ npc.mapWidth ≤ x ∨ y < 0 ∨ npc.mapHeight ≤ y) →
      npc.isValidPosition x y = false)
    ∧ (∀ t, mdAt npc.mapData x y = some t →
        (t.type = .water ∨ t.type = .rock ∨ t.type = .snow) →
        npc.isValidPosition x y = false)
    ∧ (∀ t, (0 ≤ x ∧ x < npc.mapWidth ∧ 0 ≤ y ∧ y < npc.mapHeight) →
        mdAt npc.mapData x y = some t →
        (t.type = .sand ∨ t.type = .grass) →
        npc.isValidPosition x y = true) := by
  refine ⟨?_, ?_, ?_⟩
  · intro hoob
    unfold NPC.isValidPosition
    rw [if_pos hoob]
  · intro t hmd htype
    unfold NPC.isValidPosition
    by_cases hoob : x < 0 ∨ npc.mapWidth ≤ x ∨ y < 0 ∨ npc.mapHeight ≤ y
    · rw [if_pos hoob]
    · rw [if_neg hoob, hmd]
      rcases htype with h | h | h <;> simp [h]
  · intro t hin hmd htype
    unfold NPC.isValidPosition
    rw [if_neg (by omega), hmd]
    rcases htype with h | h <;> simp [h]

/-- A concrete NPC standing on a one-cell grass map, for witnesses. -/
def sampleNPC : NPC :=
  { id := 1, mapX := 0, mapY := 0, state := .searching, lastStateCheck := 0
    stateCheckInterval := 1000, moveSpeed := 2000, lastMove := 0
    isMoving := false, mapWidth := 1, mapHeight := 1
    mapData := some [[some { type := .grass, height := 0 }]]
    treeManager := none, moveTarget := none }

/-- Closed witness for C8 at concrete inputs. -/
theorem isValidPosition_spec_witness :
    sampleNPC.isValidPosition (-1) 0 = false
    ∧ sampleNPC.isValidPosition 0 0 = true :=
  ⟨(isValidPosition_spec sampleNPC (-1) 0).1 (Or.inl (by norm_num)),
   (isValidPosition_spec sampleNPC 0 0).2.2 { type := .grass, height := 0 }
     (by norm_num [sampleNPC]) rfl (Or.inr rfl)⟩

/-- C9: an NPC in the terminal PLACE_FOUND state is left entirely unchanged
by update — same state, same authoritative cell, no new move started. -/
theorem update_terminal (npc : NPC) (time : ℤ) (choice : ℕ)
    (hst : npc.state = .placeFound) :
    npc.update time choice = npc := by
  unfold NPC.update
  rw [if_neg]
  rw [hst]
  rintro ⟨h1, h2⟩
  cases h1

/-- Closed witness for C9 at a concrete input. -/
theorem update_terminal_witness :
    NPC.update { sampleNPC with state := .placeFound } 5000 0
      = { sampleNPC with state := .placeFound } :=
  update_terminal { sampleNPC with state := .placeFound } 5000 0 rfl

/-- Modelled from the spec: the settlement side effect wiring.  The sources
under src contain the SEARCHING position check (npcs.js lines 95-100) and
TentManager.createTent (tents.js lines 636-666), but not the code that
connects them; the spec states that on a successful check the NPC
transitions to PLACE_FOUND and, as an externally observed side effect, a
tent is created at/near this position.  This definition composes the two
source operations accordingly. -/
def checkAndSettle (npc : NPC) (tents : TentManager) : NPC × TentManager :=
  if npc.isNicePlace npc.mapX npc.mapY then
    ({ npc with state := .placeFound }, (tents.createTent npc.mapX npc.mapY).2)
  else (npc, tents)

lemma isNicePlace_bounds_data {npc : NPC} {x y : ℤ}
    (hn : npc.isNicePlace x y = true) :
    ¬(x < 0 ∨ npc.mapWidth ≤ x ∨ y < 0 ∨ npc.mapHeight ≤ y)
      ∧ ∃ t, mdAt npc.mapData x y = some t := by
  unfold NPC.isNicePlace at hn
  split_ifs at hn with h1
  cases hmd : mdAt npc.mapData x y with
  | none => rw [hmd] at hn; exact absurd hn (by simp)
  | some t => exact ⟨h1, t, rfl⟩

/-- C3: when a SEARCHING NPC's position check finds isNicePlace true, the
check-and-settle step moves it to PLACE_FOUND and appends to the tent
registry (built over the same map) a tent at exactly its cell. -/
theorem settle_creates_tent (npc : NPC) (tents : TentManager)
    (hst : npc.state = .searching)
    (hnice : npc.isNicePlace npc.mapX npc.mapY = true)
    (hW : tents.mapWidth = npc.mapWidth) (hH : tents.mapHeight = npc.mapHeight)
    (hD : tents.mapData = npc.mapData) :
    (checkAndSettle npc tents).1.state = .placeFound
    ∧ ∃ tent : Tent, (checkAndSettle npc tents).2.tents = tents.tents ++ [tent]
        ∧ tent.mapX = npc.mapX ∧ tent.mapY = npc.mapY := by
  obtain ⟨hbound, t, hmd⟩ := isNicePlace_bounds_data hnice
  unfold checkAndSettle
  rw [if_pos hnice]
  refine ⟨rfl, ?_⟩
  unfold TentManager.createTent
  rw [if_neg (by rw [hW, hH]; exact hbound), if_neg (by rw [hD]; simp [hmd])]
  exact ⟨_, rfl, rfl, rfl⟩

/-- A tree manager holding one tree exactly on the screen position of cell
(0,0), making that cell a nice place. -/
def treeAtOrigin : TreeManager :=
  { sampleTreeManager with
    trees := [{ mapX := 0, mapY := 0, offsetX := 0, offsetY := 0
                screenX := 0, screenY := 0, type := "tree_1", height := 0
                depth := 10000, id := "tree_id_3" }] }

/-- The sample NPC given the origin tree, so its cell is a nice place. -/
def settlingNPC : NPC :=
  { sampleNPC with treeManager := some treeAtOrigin }

/-- The tent manager paired with settlingNPC for the C3 witness. -/
def settlingTents : TentManager :=
  { mapWidth := 1, mapHeight := 1, tents := [], nextTentId := 1
    mapData := some [[some { type := .grass, height := 0 }]] }

lemma settlingNPC_nice :
    settlingNPC.isNicePlace settlingNPC.mapX settlingNPC.mapY = true := by
  norm_num [NPC.isNicePlace, settlingNPC, sampleNPC, mdAt, NPC.hasTreeNearby,
    treeAtOrigin, sampleTreeManager, TreeManager.getTreesInRadius,
    TreeManager.mapToIsometric, withinDist]

/-- Closed witness for C3 at a concrete input. -/
theorem settle_creates_tent_witness :
    (checkAndSettle settlingNPC settlingTents).1.state = .placeFound
    ∧ ∃ tent : Tent,
        (checkAndSettle settlingNPC settlingTents).2.tents
          = settlingTents.tents ++ [tent]
        ∧ tent.mapX = settlingNPC.mapX ∧ tent.mapY = settlingNPC.mapY :=
  settle_creates_tent settlingNPC settlingTents rfl settlingNPC_nice rfl rfl rfl

end IsoGame
